import Mathlib

/-
Shallow embedding of the BID monitor server core (src/main.py) : the
deduplication ledger, the per-record processor, the day-rollover check and
the CAPTCHA-gated fetch loop of class BIDMonitorServer.  External
capabilities (hashlib.md5, photo download, card rendering, posting to X,
CAPTCHA download, OCR, the search request) are parameters; Python
exceptions raised by a capability are modelled with Except.
-/

namespace BIDMonitor

/-- A record returned by the remote source (a Python dict).  The four named
fields are the ones main.py reads; `extras` stands for any further dict
entries, passed through untouched. -/
structure Atleta where
  nome : String
  codigo_atleta : String
  contrato_numero : String
  data_publicacao : String
  extras : List (String × String) := []
deriving DecidableEq, Repr

/-- A ledger entry, as built at main.py lines 222-229. -/
structure Entry where
  nome : String
  codigo_atleta : String
  contrato_numero : String
  data_publicacao : String
  data_postagem : String
  hash : String
deriving DecidableEq, Repr

/-- The in-memory ledger: the `historico` dict, hash → entry.  Insertion
conses at the front, so lookup finds the most recent binding, matching
Python dict assignment semantics. -/
abbrev Historico := List (String × Entry)

/-- The persisted store (file atletas_postados.json); `none` = file absent. -/
abbrev Store := Option Historico

/-- Dict membership test: `h in historico`. -/
def contem (hist : Historico) (h : String) : Bool :=
  match hist with
  | [] => false
  | (k, _) :: t => k == h || contem t h

/-- The identifier string of main.py line 116:
`f"{codigo_atleta}_{contrato_numero}_{data_publicacao}"`. -/
def identificador (a : Atleta) : String :=
  a.codigo_atleta ++ "_" ++ a.contrato_numero ++ "_" ++ a.data_publicacao

/-- `gerar_hash_atleta` (main.py 114-117): the MD5 hex digest of the
identifier.  `md5` is the external digest function (hashlib), a parameter
of the whole development. -/
def gerar_hash_atleta (md5 : String → String) (a : Atleta) : String :=
  md5 (identificador a)

/-- `carregar_historico` (main.py 90-103): absent file, or any read/parse
failure, yields the empty mapping. -/
def carregar_historico (store : Store) : Historico :=
  store.getD []

/-- The external capabilities used per record by `processar_resultados`.
Each may raise (Except.error). `criar_card_atleta` may return `none`
(falsy card path). -/
structure Caps where
  baixar_foto_atleta : Atleta → Except Unit (Option String)
  criar_card_atleta : Atleta → Option String → Except Unit (Option String)
  postar_no_x : Atleta → String → Except Unit Bool

/-- Observable state threaded through one `processar_resultados` call:
the working ledger, the persisted store, the success counter
`postados_com_sucesso`, and traces of publish calls, successful publishes
and save calls. -/
structure PState where
  historico : Historico
  store : Store
  postados : Nat
  publishCalls : List String
  publishSuccesses : List String
  saves : Nat
deriving DecidableEq, Repr

def pinit (hist : Historico) (store : Store) : PState :=
  ⟨hist, store, 0, [], [], 0⟩

/-- `salvar_historico` (main.py 105-112): full rewrite of the store from
the working ledger; its own failures are swallowed inside it. -/
def salvar_historico (st : PState) : PState :=
  { st with store := some st.historico, saves := st.saves + 1 }

/-- The entry inserted on publish success (main.py 222-229). -/
def entrada (now : String) (h : String) (a : Atleta) : Entry :=
  ⟨a.nome, a.codigo_atleta, a.contrato_numero, a.data_publicacao, now, h⟩

/-- The body of the per-record loop of `processar_resultados`
(main.py 203-253).  An exception from any capability is caught by the
`except` at 242-244 and leaves the state of this record untouched; the
`finally` cleanup and sleep have no observable effect here.  Note the save
at 238-240 runs after the if/else whenever no exception occurred and at
least one success has been counted so far. -/
def processar_um (md5 : String → String) (now : String) (caps : Caps)
    (st : PState) (a : Atleta) : PState :=
  match caps.baixar_foto_atleta a with
  | Except.error _ => st
  | Except.ok foto_path =>
    match caps.criar_card_atleta a foto_path with
    | Except.error _ => st
    | Except.ok none =>
      if st.postados > 0 then salvar_historico st else st
    | Except.ok (some card) =>
      let h := gerar_hash_atleta md5 a
      let st1 := { st with publishCalls := st.publishCalls ++ [h] }
      match caps.postar_no_x a card with
      | Except.error _ => st1
      | Except.ok sucesso =>
        let st2 :=
          if sucesso then
            { st1 with
              historico := (h, entrada now h a) :: st1.historico,
              postados := st1.postados + 1,
              publishSuccesses := st1.publishSuccesses ++ [h] }
          else st1
        if st2.postados > 0 then salvar_historico st2 else st2

/-- The classification pass of main.py 187-195: the records whose hash is
absent from the ledger snapshot, in batch order. -/
def novosDe (md5 : String → String) (hist : Historico) (dados : List Atleta) :
    List Atleta :=
  dados.filter (fun a => !(contem hist (gerar_hash_atleta md5 a)))

/-- `processar_resultados` (main.py 177-263).  `resp = none` models a body
that fails to parse as a JSON list (caught by the outer except, returning
0); an empty list, or an all-seen batch, returns 0 before the loop; else
each new record runs through `processar_um` and a final save closes the
cycle (main.py 255-256). -/
def processar_resultados (md5 : String → String) (now : String) (caps : Caps)
    (resp : Option (List Atleta)) (hist : Historico) (store : Store) : PState :=
  match resp with
  | none => pinit hist store
  | some dados =>
    if dados.isEmpty then pinit hist store
    else
      let novos := novosDe md5 hist dados
      if novos.isEmpty then pinit hist store
      else salvar_historico (novos.foldl (processar_um md5 now caps) (pinit hist store))

/-- True when the record's own media and card capabilities let the publish
call happen: photo download does not raise and card rendering returns a
non-falsy path. -/
def tenta_publicar (caps : Caps) (a : Atleta) : Bool :=
  match caps.baixar_foto_atleta a with
  | Except.error _ => false
  | Except.ok p =>
    match caps.criar_card_atleta a p with
    | Except.error _ => false
    | Except.ok none => false
    | Except.ok (some _) => true

/-- True when the record publishes successfully: media and card succeed and
`postar_no_x` returns True without raising. -/
def publica_com_sucesso (caps : Caps) (a : Atleta) : Bool :=
  match caps.baixar_foto_atleta a with
  | Except.error _ => false
  | Except.ok p =>
    match caps.criar_card_atleta a p with
    | Except.error _ => false
    | Except.ok none => false
    | Except.ok (some card) =>
      match caps.postar_no_x a card with
      | Except.error _ => false
      | Except.ok sucesso => sucesso

/-- `limpar_historico_se_novo_dia` (main.py 61-88), made explicit in the
day baseline `ultimo` (self.ultimo_dia_verificado) and the store.
`remove_ok = false` models os.remove raising: the exception is caught at
84-86, the function returns False and the baseline is not updated.  When
the store is absent the existence check skips the remove and the rollover
still completes. -/
def limpar_historico_se_novo_dia (remove_ok : Bool) (dia_atual : String)
    (ultimo : Option String) (store : Store) : Bool × Option String × Store :=
  match ultimo with
  | none => (false, some dia_atual, store)
  | some d =>
    if dia_atual ≠ d then
      match store with
      | some _ =>
        if remove_ok then (true, some dia_atual, none)
        else (false, some d, store)
      | none => (true, some dia_atual, none)
    else (false, some d, store)

/-- A response of `tentar_busca`: the raw text (inspected for the
substring "captcha") and the parsed JSON body (`none` when `.json()`
raises or the value is not a list). -/
structure SearchResp where
  text : String
  corpo : Option (List Atleta)
deriving DecidableEq, Repr

/-- External capabilities of the fetch loop, indexed by attempt number so
each attempt may behave differently.  `tentar_busca` takes the attempt
index, the CSRF token, the OCR text and the target date. -/
structure FetchCaps where
  pegar_csrf_token : Except Unit String
  baixar_captcha : Nat → Except Unit String
  ocr_captcha : Nat → String → Except Unit String
  tentar_busca : Nat → String → String → String → Except Unit SearchResp

/-- Observable trace of the attempt loop: attempts entered, search
requests sent, and the accepted response if any. -/
structure FetchTrace where
  tentativas : Nat
  buscas : Nat
  resultado : Option SearchResp
deriving DecidableEq, Repr

def listaPrefixo : List Char → List Char → Bool
  | [], _ => true
  | _ :: _, [] => false
  | a :: as, b :: bs => a == b && listaPrefixo as bs

def listaInfixo (p : List Char) : List Char → Bool
  | [] => listaPrefixo p []
  | c :: t => listaPrefixo p (c :: t) || listaInfixo p t

/-- `"captcha" in resp.text.lower()` (main.py 151). -/
def resposta_tem_captcha (s : String) : Bool :=
  listaInfixo "captcha".toList s.toLower.toList

/-- The attempt loop of `buscar_e_processar_novos` (main.py 138-168):
structural recursion on remaining attempts, `i` the 1-based attempt
number.  Any capability exception is caught by the per-attempt except at
166-168 and consumes the attempt; an OCR text shorter than 3 characters
skips the attempt before any request (145-147); a response whose text
contains "captcha" is a rejection and the loop continues (151-154);
otherwise the response is accepted and looping stops. -/
def tentar_loop (fc : FetchCaps) (tok data : String) :
    Nat → Nat → FetchTrace → FetchTrace
  | 0, _, tr => tr
  | n + 1, i, tr =>
    let tr1 := { tr with tentativas := tr.tentativas + 1 }
    match fc.baixar_captcha i with
    | Except.error _ => tentar_loop fc tok data n (i + 1) tr1
    | Except.ok img =>
      match fc.ocr_captcha i img with
      | Except.error _ => tentar_loop fc tok data n (i + 1) tr1
      | Except.ok txt =>
        if txt.length < 3 then tentar_loop fc tok data n (i + 1) tr1
        else
          let tr2 := { tr1 with buscas := tr1.buscas + 1 }
          match fc.tentar_busca i tok txt data with
          | Except.error _ => tentar_loop fc tok data n (i + 1) tr2
          | Except.ok resp =>
            if resposta_tem_captcha resp.text then
              tentar_loop fc tok data n (i + 1) tr2
            else { tr2 with resultado := some resp }

/-- Result of one `buscar_e_processar_novos` cycle. -/
structure BuscaOutcome where
  retorno : Bool
  tentativas : Nat
  buscas : Nat
  processado : Option PState
  ultimo : Option String
  storeFinal : Store
deriving Repr

/-- `buscar_e_processar_novos` (main.py 119-175): day-rollover check, load
the ledger from the store, acquire the CSRF token (failure is fatal to the
cycle, caught at 173-175 returning False), then at most
`min MAX_TENTATIVAS 50` attempts (main.py 138); an accepted response is
processed and the cycle returns True; exhaustion returns False. -/
def buscar_e_processar_novos (md5 : String → String) (now : String)
    (caps : Caps) (fc : FetchCaps) (maxTentativas : Nat) (remove_ok : Bool)
    (dia_atual data_busca : String) (ultimo : Option String) (store : Store) :
    BuscaOutcome :=
  let r := limpar_historico_se_novo_dia remove_ok dia_atual ultimo store
  let ultimo1 := r.2.1
  let store1 := r.2.2
  let historico := carregar_historico store1
  match fc.pegar_csrf_token with
  | Except.error _ => ⟨false, 0, 0, none, ultimo1, store1⟩
  | Except.ok tok =>
    let tr := tentar_loop fc tok data_busca (min maxTentativas 50) 1 ⟨0, 0, none⟩
    match tr.resultado with
    | some resp =>
      let ps := processar_resultados md5 now caps resp.corpo historico store1
      ⟨true, tr.tentativas, tr.buscas, some ps, ultimo1, ps.store⟩
    | none => ⟨false, tr.tentativas, tr.buscas, none, ultimo1, store1⟩

/-- A run of successive processing cycles over the same persisted store:
each cycle reloads the ledger from the store (main.py 130) and processes
its batch; the store left by the cycle feeds the next one.  Returns the
per-cycle states. -/
def runCycles (md5 : String → String) (now : String) (caps : Caps) :
    Store → List (Option (List Atleta)) → List PState
  | _, [] => []
  | store, r :: rs =>
    let st := processar_resultados md5 now caps r (carregar_historico store) store
    st :: runCycles md5 now caps st.store rs

/-! ### Per-record lemmas: how one loop iteration changes each field -/

lemma processar_um_publishCalls (md5 : String → String) (now : String)
    (caps : Caps) (st : PState) (a : Atleta) :
    (processar_um md5 now caps st a).publishCalls
      = st.publishCalls
        ++ (if tenta_publicar caps a then [gerar_hash_atleta md5 a] else []) := by
  unfold processar_um tenta_publicar
  cases hb : caps.baixar_foto_atleta a with
  | error e => simp [hb]
  | ok p =>
    cases hc : caps.criar_card_atleta a p with
    | error e => simp [hb, hc]
    | ok cp =>
      cases cp with
      | none => simp [hb, hc] <;> split <;> simp [salvar_historico]
      | some card =>
        cases hp : caps.postar_no_x a card with
        | error e => simp [hb, hc, hp]
        | ok s =>
          cases s <;> simp [hb, hc, hp, salvar_historico] <;> split <;>
            simp [salvar_historico]

lemma processar_um_postados (md5 : String → String) (now : String)
    (caps : Caps) (st : PState) (a : Atleta) :
    (processar_um md5 now caps st a).postados
      = st.postados + (if publica_com_sucesso caps a then 1 else 0) := by
  unfold processar_um publica_com_sucesso
  cases hb : caps.baixar_foto_atleta a with
  | error e => simp [hb]
  | ok p =>
    cases hc : caps.criar_card_atleta a p with
    | error e => simp [hb, hc]
    | ok cp =>
      cases cp with
      | none => simp [hb, hc] <;> split <;> simp [salvar_historico]
      | some card =>
        cases hp : caps.postar_no_x a card with
        | error e => simp [hb, hc, hp]
        | ok s =>
          cases s <;> simp [hb, hc, hp, salvar_historico] <;> split <;>
            simp [salvar_historico]

lemma processar_um_publishSuccesses (md5 : String → String) (now : String)
    (caps : Caps) (st : PState) (a : Atleta) :
    (processar_um md5 now caps st a).publishSuccesses
      = st.publishSuccesses
        ++ (if publica_com_sucesso caps a then [gerar_hash_atleta md5 a] else []) := by
  unfold processar_um publica_com_sucesso
  cases hb : caps.baixar_foto_atleta a with
  | error e => simp [hb]
  | ok p =>
    cases hc : caps.criar_card_atleta a p with
    | error e => simp [hb, hc]
    | ok cp =>
      cases cp with
      | none => simp [hb, hc] <;> split <;> simp [salvar_historico]
      | some card =>
        cases hp : caps.postar_no_x a card with
        | error e => simp [hb, hc, hp]
        | ok s =>
          cases s <;> simp [hb, hc, hp, salvar_historico] <;> split <;>
            simp [salvar_historico]

lemma processar_um_historico (md5 : String → String) (now : String)
    (caps : Caps) (st : PState) (a : Atleta) :
    (processar_um md5 now caps st a).historico
      = if publica_com_sucesso caps a then
          (gerar_hash_atleta md5 a,
            entrada now (gerar_hash_atleta md5 a) a) :: st.historico
        else st.historico := by
  unfold processar_um publica_com_sucesso
  cases hb : caps.baixar_foto_atleta a with
  | error e => simp [hb]
  | ok p =>
    cases hc : caps.criar_card_atleta a p with
    | error e => simp [hb, hc]
    | ok cp =>
      cases cp with
      | none => simp [hb, hc] <;> split <;> simp [salvar_historico]
      | some card =>
        cases hp : caps.postar_no_x a card with
        | error e => simp [hb, hc, hp]
        | ok s =>
          cases s <;> simp [hb, hc, hp, salvar_historico] <;> split <;>
            simp [salvar_historico]

/-! ### Fold lemmas: the whole per-record loop -/

lemma mem_foldl_publishCalls (md5 : String → String) (now : String)
    (caps : Caps) (l : List Atleta) (st : PState) (x : String) :
    x ∈ (l.foldl (processar_um md5 now caps) st).publishCalls ↔
      x ∈ st.publishCalls ∨
        ∃ a ∈ l, tenta_publicar caps a = true ∧ x = gerar_hash_atleta md5 a := by
  induction l generalizing st with
  | nil => simp
  | cons a t ih =>
    rw [List.foldl_cons, ih]
    by_cases hta : tenta_publicar caps a
    · simp [processar_um_publishCalls, hta, or_assoc]
    · simp [processar_um_publishCalls, hta]

lemma foldl_postados (md5 : String → String) (now : String)
    (caps : Caps) (l : List Atleta) (st : PState) :
    (l.foldl (processar_um md5 now caps) st).postados
      = st.postados + l.countP (publica_com_sucesso caps) := by
  induction l generalizing st with
  | nil => simp
  | cons a t ih =>
    rw [List.foldl_cons, ih, processar_um_postados, List.countP_cons]
    by_cases hpa : publica_com_sucesso caps a <;> simp [hpa] <;> omega

lemma mem_foldl_publishSuccesses (md5 : String → String) (now : String)
    (caps : Caps) (l : List Atleta) (st : PState) (x : String) :
    x ∈ (l.foldl (processar_um md5 now caps) st).publishSuccesses ↔
      x ∈ st.publishSuccesses ∨
        ∃ a ∈ l, publica_com_sucesso caps a = true ∧ x = gerar_hash_atleta md5 a := by
  induction l generalizing st with
  | nil => simp
  | cons a t ih =>
    rw [List.foldl_cons, ih]
    by_cases hpa : publica_com_sucesso caps a
    · simp [processar_um_publishSuccesses, hpa, or_assoc]
    · simp [processar_um_publishSuccesses, hpa]

lemma contem_foldl_mono (md5 : String → String) (now : String)
    (caps : Caps) (l : List Atleta) (st : PState) (h : String)
    (hst : contem st.historico h = true) :
    contem (l.foldl (processar_um md5 now caps) st).historico h = true := by
  induction l generalizing st with
  | nil => simpa using hst
  | cons a t ih =>
    rw [List.foldl_cons]
    apply ih
    rw [processar_um_historico]
    by_cases hpa : publica_com_sucesso caps a <;> simp [hpa, contem, hst]

lemma contem_foldl_inv (md5 : String → String) (now : String)
    (caps : Caps) (l : List Atleta) (st : PState) (h : String)
    (hres : contem (l.foldl (processar_um md5 now caps) st).historico h = true) :
    contem st.historico h = true ∨
      h ∈ (l.foldl (processar_um md5 now caps) st).publishSuccesses := by
  induction l generalizing st with
  | nil => left; simpa using hres
  | cons a t ih =>
    rw [List.foldl_cons] at hres ⊢
    rcases ih (processar_um md5 now caps st a) hres with hmem | hsucc
    · rw [processar_um_historico] at hmem
      by_cases hpa : publica_com_sucesso caps a
      · rw [if_pos hpa] at hmem
        rcases (by simpa [contem] using hmem : gerar_hash_atleta md5 a = h ∨
            contem st.historico h = true) with heq | hold
        · right
          rw [mem_foldl_publishSuccesses]
          left
          rw [processar_um_publishSuccesses, if_pos hpa, ← heq]
          simp
        · left; exact hold
      · rw [if_neg hpa] at hmem
        left; exact hmem
    · right; exact hsucc

lemma foldl_successes_contem (md5 : String → String) (now : String)
    (caps : Caps) (l : List Atleta) (st : PState)
    (hinv : ∀ x, x ∈ st.publishSuccesses → contem st.historico x = true) :
    ∀ x, x ∈ (l.foldl (processar_um md5 now caps) st).publishSuccesses →
      contem (l.foldl (processar_um md5 now caps) st).historico x = true := by
  induction l generalizing st with
  | nil => simpa using hinv
  | cons a t ih =>
    rw [List.foldl_cons]
    apply ih
    intro x hx
    rw [processar_um_publishSuccesses] at hx
    rw [processar_um_historico]
    by_cases hpa : publica_com_sucesso caps a
    · rw [if_pos hpa] at hx ⊢
      rcases List.mem_append.mp hx with hx | hx
      · simp [contem, hinv x hx]
      · simp at hx
        subst hx
        simp [contem]
    · rw [if_neg hpa] at hx ⊢
      simp at hx
      exact hinv x hx

/-! ### Lemmas about a whole `processar_resultados` call -/

lemma processar_cases (md5 : String → String) (now : String) (caps : Caps)
    (resp : Option (List Atleta)) (hist : Historico) (store : Store) :
    processar_resultados md5 now caps resp hist store = pinit hist store ∨
      ∃ dados, resp = some dados ∧ novosDe md5 hist dados ≠ [] ∧
        processar_resultados md5 now caps resp hist store
          = salvar_historico ((novosDe md5 hist dados).foldl
              (processar_um md5 now caps) (pinit hist store)) := by
  cases resp with
  | none => left; rfl
  | some dados =>
    by_cases hd : dados.isEmpty
    · left; simp [processar_resultados, hd]
    · by_cases hn : (novosDe md5 hist dados).isEmpty
      · left; simp [processar_resultados, hd, hn]
      · right
        exact ⟨dados, rfl, by simpa [List.isEmpty_iff] using hn,
          by simp [processar_resultados, hd, hn]⟩

lemma processar_historico_mono (md5 : String → String) (now : String)
    (caps : Caps) (resp : Option (List Atleta)) (hist : Historico)
    (store : Store) (h : String) (hc : contem hist h = true) :
    contem (processar_resultados md5 now caps resp hist store).historico h = true := by
  rcases processar_cases md5 now caps resp hist store with heq | ⟨dados, _, _, heq⟩
  · rw [heq]; exact hc
  · rw [heq]
    exact contem_foldl_mono md5 now caps _ _ h hc

lemma processar_contem_inv (md5 : String → String) (now : String)
    (caps : Caps) (resp : Option (List Atleta)) (hist : Historico)
    (store : Store) (h : String)
    (hc : contem (processar_resultados md5 now caps resp hist store).historico h = true) :
    contem hist h = true ∨
      h ∈ (processar_resultados md5 now caps resp hist store).publishSuccesses := by
  rcases processar_cases md5 now caps resp hist store with heq | ⟨dados, _, _, heq⟩
  · rw [heq] at hc; left; exact hc
  · rw [heq] at hc ⊢
    exact contem_foldl_inv md5 now caps _ _ h hc

lemma processar_publishCalls_inv (md5 : String → String) (now : String)
    (caps : Caps) (resp : Option (List Atleta)) (hist : Historico)
    (store : Store) (x : String)
    (hx : x ∈ (processar_resultados md5 now caps resp hist store).publishCalls) :
    ∃ dados, resp = some dados ∧ ∃ a ∈ novosDe md5 hist dados,
      tenta_publicar caps a = true ∧ x = gerar_hash_atleta md5 a := by
  rcases processar_cases md5 now caps resp hist store with heq | ⟨dados, hresp, _, heq⟩
  · rw [heq] at hx; simp [pinit] at hx
  · rw [heq] at hx
    rcases (mem_foldl_publishCalls md5 now caps _ _ x).mp hx with hx | hx
    · simp [pinit] at hx
    · exact ⟨dados, hresp, hx⟩

lemma processar_seen_no_call (md5 : String → String) (now : String)
    (caps : Caps) (resp : Option (List Atleta)) (hist : Historico)
    (store : Store) (h : String) (hc : contem hist h = true) :
    h ∉ (processar_resultados md5 now caps resp hist store).publishCalls := by
  intro hx
  rcases processar_publishCalls_inv md5 now caps resp hist store h hx with
    ⟨dados, _, a, ha, _, heq⟩
  have := List.of_mem_filter ha
  rw [← heq] at this
  simp [hc] at this

lemma processar_success_contem (md5 : String → String) (now : String)
    (caps : Caps) (resp : Option (List Atleta)) (hist : Historico)
    (store : Store) (h : String)
    (hs : h ∈ (processar_resultados md5 now caps resp hist store).publishSuccesses) :
    contem (processar_resultados md5 now caps resp hist store).historico h = true := by
  rcases processar_cases md5 now caps resp hist store with heq | ⟨dados, _, _, heq⟩
  · rw [heq] at hs; simp [pinit] at hs
  · rw [heq] at hs ⊢
    exact foldl_successes_contem md5 now caps _ _ (by simp [pinit]) h hs

lemma processar_success_store (md5 : String → String) (now : String)
    (caps : Caps) (resp : Option (List Atleta)) (hist : Historico)
    (store : Store) (h : String)
    (hs : h ∈ (processar_resultados md5 now caps resp hist store).publishSuccesses) :
    (processar_resultados md5 now caps resp hist store).store
      = some (processar_resultados md5 now caps resp hist store).historico := by
  rcases processar_cases md5 now caps resp hist store with heq | ⟨dados, _, _, heq⟩
  · rw [heq] at hs; simp [pinit] at hs
  · rw [heq]; rfl

lemma processar_store_cases (md5 : String → String) (now : String)
    (caps : Caps) (resp : Option (List Atleta)) (hist : Historico)
    (store : Store) :
    (processar_resultados md5 now caps resp hist store).store = store ∨
      (processar_resultados md5 now caps resp hist store).store
        = some (processar_resultados md5 now caps resp hist store).historico := by
  rcases processar_cases md5 now caps resp hist store with heq | ⟨dados, _, _, heq⟩
  · rw [heq]; left; rfl
  · rw [heq]; right; rfl

/-! ### Lemmas about successive cycles -/

lemma cycle_store_mono (md5 : String → String) (now : String) (caps : Caps)
    (r : Option (List Atleta)) (store : Store) (h : String)
    (hc : contem (carregar_historico store) h = true) :
    contem (carregar_historico
      (processar_resultados md5 now caps r (carregar_historico store) store).store)
        h = true := by
  rcases processar_store_cases md5 now caps r (carregar_historico store) store with
    heq | heq
  · rw [heq]; exact hc
  · rw [heq]
    exact processar_historico_mono md5 now caps r _ store h hc

lemma cycle_success_store (md5 : String → String) (now : String) (caps : Caps)
    (r : Option (List Atleta)) (store : Store) (h : String)
    (hs : h ∈ (processar_resultados md5 now caps r (carregar_historico store) store).publishSuccesses) :
    contem (carregar_historico
      (processar_resultados md5 now caps r (carregar_historico store) store).store)
        h = true := by
  rw [processar_success_store md5 now caps r (carregar_historico store) store h hs]
  exact processar_success_contem md5 now caps r (carregar_historico store) store h hs

lemma runCycles_no_call_of_seen (md5 : String → String) (now : String)
    (caps : Caps) (h : String) :
    ∀ (batches : List (Option (List Atleta))) (store : Store),
      contem (carregar_historico store) h = true →
      ∀ j sj, (runCycles md5 now caps store batches).get? j = some sj →
        h ∉ sj.publishCalls := by
  intro batches
  induction batches with
  | nil =>
    intro store _ j sj hj
    simp [runCycles] at hj
  | cons r rs ih =>
    intro store hc j sj hj
    cases j with
    | zero =>
      simp only [runCycles, List.get?_cons_zero, Option.some.injEq] at hj
      rw [← hj]
      exact processar_seen_no_call md5 now caps r (carregar_historico store) store h hc
    | succ j' =>
      simp only [runCycles, List.get?_cons_succ] at hj
      exact ih _ (cycle_store_mono md5 now caps r store h hc) j' sj hj

/-! ### Lemmas about the fetch attempt loop -/

lemma tentar_loop_step_short (fc : FetchCaps) (tok data : String)
    (hocr : ∀ i img s, fc.ocr_captcha i img = Except.ok s → s.length < 3)
    (m i : Nat) (tr : FetchTrace) :
    tentar_loop fc tok data (m + 1) i tr
      = tentar_loop fc tok data m (i + 1)
          { tr with tentativas := tr.tentativas + 1 } := by
  rw [tentar_loop]
  cases hb : fc.baixar_captcha i with
  | error e => simp [hb]
  | ok img =>
    cases ho : fc.ocr_captcha i img with
    | error e => simp [hb, ho]
    | ok txt => simp [hb, ho, if_pos (hocr i img txt ho)]

lemma tentar_loop_all_short (fc : FetchCaps) (tok data : String)
    (hocr : ∀ i img s, fc.ocr_captcha i img = Except.ok s → s.length < 3) :
    ∀ (n i : Nat) (tr : FetchTrace),
      (tentar_loop fc tok data n i tr).tentativas = tr.tentativas + n ∧
      (tentar_loop fc tok data n i tr).buscas = tr.buscas ∧
      (tentar_loop fc tok data n i tr).resultado = tr.resultado := by
  intro n
  induction n with
  | zero => intro i tr; simp [tentar_loop]
  | succ m ih =>
    intro i tr
    rw [tentar_loop_step_short fc tok data hocr m i tr]
    rcases ih (i + 1) { tr with tentativas := tr.tentativas + 1 } with ⟨h1, h2, h3⟩
    refine ⟨?_, by simpa using h2, by simpa using h3⟩
    rw [h1]
    show tr.tentativas + 1 + m = tr.tentativas + (m + 1)
    omega

/-! ### Claim theorems -/

/-- C1: across a run of fetch cycles sharing the persisted store, once a
record's fingerprint `h` has been inserted into the ledger after a
successful publish in cycle `i`, every later cycle `j` reloads a store
containing `h`, classifies any record with that fingerprint as already
seen, and performs no publish call for it. -/
theorem no_double_publish_across_cycles (md5 : String → String) (now : String)
    (caps : Caps) (store0 : Store) (batches : List (Option (List Atleta)))
    (i j : Nat) (si sj : PState) (h : String) (hij : i < j)
    (hi : (runCycles md5 now caps store0 batches).get? i = some si)
    (hj : (runCycles md5 now caps store0 batches).get? j = some sj)
    (hpub : h ∈ si.publishSuccesses) :
    h ∉ sj.publishCalls := by
  induction batches generalizing store0 i j with
  | nil => simp [runCycles] at hi
  | cons r rs ih =>
    cases i with
    | zero =>
      cases j with
      | zero => omega
      | succ j' =>
        simp only [runCycles, List.get?_cons_zero, Option.some.injEq] at hi
        simp only [runCycles, List.get?_cons_succ] at hj
        rw [← hi] at hpub
        exact runCycles_no_call_of_seen md5 now caps h rs _
          (cycle_success_store md5 now caps r store0 h hpub) j' sj hj
    | succ i' =>
      cases j with
      | zero => omega
      | succ j' =>
        simp only [runCycles, List.get?_cons_succ] at hi hj
        exact ih _ i' j' (by omega) hi hj

/-- C1 witness: two one-record cycles carrying the same fingerprint; the
first publishes it, the second performs no publish call for it. -/
theorem no_double_publish_across_cycles_witness :
    "1_10_d" ∉
      ((runCycles (fun s => s) "now"
        { baixar_foto_atleta := fun _ => Except.ok (some "f"),
          criar_card_atleta := fun _ _ => Except.ok (some "c"),
          postar_no_x := fun _ _ => Except.ok true }
        none
        [some [{ nome := "A", codigo_atleta := "1", contrato_numero := "10",
                 data_publicacao := "d" }],
         some [{ nome := "B", codigo_atleta := "1", contrato_numero := "10",
                 data_publicacao := "d" }]]).getD 1 (pinit [] none)).publishCalls := by
  have hres := no_double_publish_across_cycles (fun s => s) "now"
    { baixar_foto_atleta := fun _ => Except.ok (some "f"),
      criar_card_atleta := fun _ _ => Except.ok (some "c"),
      postar_no_x := fun _ _ => Except.ok true }
    none
    [some [{ nome := "A", codigo_atleta := "1", contrato_numero := "10",
             data_publicacao := "d" }],
     some [{ nome := "B", codigo_atleta := "1", contrato_numero := "10",
             data_publicacao := "d" }]]
    0 1 _ _ "1_10_d" (by decide) rfl rfl (by decide)
  simpa using hres

/-- C2: the fingerprint depends only on the three key fields: two records
agreeing on codigo_atleta, contrato_numero and data_publicacao get the
identical digest, whatever their name or extra attributes. -/
theorem gerar_hash_atleta_deterministico (md5 : String → String)
    (a1 a2 : Atleta) (h1 : a1.codigo_atleta = a2.codigo_atleta)
    (h2 : a1.contrato_numero = a2.contrato_numero)
    (h3 : a1.data_publicacao = a2.data_publicacao) :
    gerar_hash_atleta md5 a1 = gerar_hash_atleta md5 a2 := by
  simp [gerar_hash_atleta, identificador, h1, h2, h3]

/-- C2 witness: records differing in name and extras but agreeing on the
key tuple hash identically. -/
theorem gerar_hash_atleta_deterministico_witness :
    gerar_hash_atleta (fun s => s ++ "!")
      { nome := "A", codigo_atleta := "1", contrato_numero := "10",
        data_publicacao := "d", extras := [("k", "v")] }
      = gerar_hash_atleta (fun s => s ++ "!")
        { nome := "B", codigo_atleta := "1", contrato_numero := "10",
          data_publicacao := "d" } :=
  gerar_hash_atleta_deterministico (fun s => s ++ "!") _ _ rfl rfl rfl

/-- C3: with a successful token acquisition and an OCR capability whose
every answer is shorter than 3 characters, the cycle consumes exactly
min(MAX_TENTATIVAS, 50) attempts, sends no search request, and returns
False. -/
theorem retry_bound_ocr_curto (md5 : String → String) (now : String)
    (caps : Caps) (fc : FetchCaps) (maxTentativas : Nat) (remove_ok : Bool)
    (dia_atual data_busca : String) (ultimo : Option String) (store : Store)
    (tok : String) (hcsrf : fc.pegar_csrf_token = Except.ok tok)
    (hocr : ∀ i img s, fc.ocr_captcha i img = Except.ok s → s.length < 3) :
    (buscar_e_processar_novos md5 now caps fc maxTentativas remove_ok
        dia_atual data_busca ultimo store).retorno = false ∧
    (buscar_e_processar_novos md5 now caps fc maxTentativas remove_ok
        dia_atual data_busca ultimo store).tentativas = min maxTentativas 50 ∧
    (buscar_e_processar_novos md5 now caps fc maxTentativas remove_ok
        dia_atual data_busca ultimo store).buscas = 0 := by
  rcases tentar_loop_all_short fc tok data_busca hocr (min maxTentativas 50) 1
    ⟨0, 0, none⟩ with ⟨h1, h2, h3⟩
  unfold buscar_e_processar_novos
  rw [hcsrf]
  simp only [h3]
  simp [h1, h2]

/-- C3 witness: a 1-character OCR with a 100-attempt configuration runs
exactly 50 attempts, sends nothing, and fails. -/
theorem retry_bound_ocr_curto_witness :
    (buscar_e_processar_novos (fun s => s) "now"
      { baixar_foto_atleta := fun _ => Except.ok (some "f"),
        criar_card_atleta := fun _ _ => Except.ok (some "c"),
        postar_no_x := fun _ _ => Except.ok true }
      { pegar_csrf_token := Except.ok "tok",
        baixar_captcha := fun _ => Except.ok "img",
        ocr_captcha := fun _ _ => Except.ok "x",
        tentar_busca := fun _ _ _ _ => Except.ok ⟨"ok", some []⟩ }
      100 true "2024-01-01" "d" none none).retorno = false ∧
    (buscar_e_processar_novos (fun s => s) "now"
      { baixar_foto_atleta := fun _ => Except.ok (some "f"),
        criar_card_atleta := fun _ _ => Except.ok (some "c"),
        postar_no_x := fun _ _ => Except.ok true }
      { pegar_csrf_token := Except.ok "tok",
        baixar_captcha := fun _ => Except.ok "img",
        ocr_captcha := fun _ _ => Except.ok "x",
        tentar_busca := fun _ _ _ _ => Except.ok ⟨"ok", some []⟩ }
      100 true "2024-01-01" "d" none none).tentativas = min 100 50 ∧
    (buscar_e_processar_novos (fun s => s) "now"
      { baixar_foto_atleta := fun _ => Except.ok (some "f"),
        criar_card_atleta := fun _ _ => Except.ok (some "c"),
        postar_no_x := fun _ _ => Except.ok true }
      { pegar_csrf_token := Except.ok "tok",
        baixar_captcha := fun _ => Except.ok "img",
        ocr_captcha := fun _ _ => Except.ok "x",
        tentar_busca := fun _ _ _ _ => Except.ok ⟨"ok", some []⟩ }
      100 true "2024-01-01" "d" none none).buscas = 0 :=
  retry_bound_ocr_curto (fun s => s) "now"
    { baixar_foto_atleta := fun _ => Except.ok (some "f"),
      criar_card_atleta := fun _ _ => Except.ok (some "c"),
      postar_no_x := fun _ _ => Except.ok true }
    { pegar_csrf_token := Except.ok "tok",
      baixar_captcha := fun _ => Except.ok "img",
      ocr_captcha := fun _ _ => Except.ok "x",
      tentar_busca := fun _ _ _ _ => Except.ok ⟨"ok", some []⟩ }
    100 true "2024-01-01" "d" none none "tok" rfl
    (by intro i img s hs; cases hs; decide)

/-- C4: failure isolation — whatever exceptions other records raise, a new
record whose own media and card steps succeed still gets its publish call,
and the batch count equals the number of records whose own pipeline
succeeded. -/
theorem isolamento_de_falhas (md5 : String → String) (now : String)
    (caps : Caps) (hist : Historico) (store : Store) (dados : List Atleta)
    (r : Atleta) (hr : r ∈ novosDe md5 hist dados)
    (hcap : tenta_publicar caps r = true) :
    gerar_hash_atleta md5 r ∈
      (processar_resultados md5 now caps (some dados) hist store).publishCalls ∧
    (processar_resultados md5 now caps (some dados) hist store).postados
      = (novosDe md5 hist dados).countP (publica_com_sucesso caps) := by
  have hrd : r ∈ dados := List.mem_of_mem_filter hr
  have hd : ¬ dados.isEmpty := by
    cases dados with
    | nil => simp at hrd
    | cons a t => simp
  have hn : ¬ (novosDe md5 hist dados).isEmpty := by
    cases hnd : novosDe md5 hist dados with
    | nil => rw [hnd] at hr; simp at hr
    | cons a t => simp
  have heq : processar_resultados md5 now caps (some dados) hist store
      = salvar_historico ((novosDe md5 hist dados).foldl
          (processar_um md5 now caps) (pinit hist store)) := by
    simp [processar_resultados, hd, hn]
  rw [heq]
  constructor
  · show gerar_hash_atleta md5 r ∈
      ((novosDe md5 hist dados).foldl (processar_um md5 now caps)
        (pinit hist store)).publishCalls
    rw [mem_foldl_publishCalls]
    right
    exact ⟨r, hr, hcap, rfl⟩
  · show ((novosDe md5 hist dados).foldl (processar_um md5 now caps)
      (pinit hist store)).postados = _
    rw [foldl_postados]
    simp [pinit]

/-- C4 witness: a 3-record batch where card rendering for the middle
record raises; records 1 and 3 still get publish calls and the count is
exactly their 2 successes. -/
theorem isolamento_de_falhas_witness :
    "3_30_d" ∈
      (processar_resultados (fun s => s) "now"
        { baixar_foto_atleta := fun _ => Except.ok (some "f"),
          criar_card_atleta := fun a _ =>
            if a.nome == "B" then Except.error () else Except.ok (some "c"),
          postar_no_x := fun _ _ => Except.ok true }
        (some [{ nome := "A", codigo_atleta := "1", contrato_numero := "10",
                 data_publicacao := "d" },
               { nome := "B", codigo_atleta := "2", contrato_numero := "20",
                 data_publicacao := "d" },
               { nome := "C", codigo_atleta := "3", contrato_numero := "30",
                 data_publicacao := "d" }]) [] none).publishCalls ∧
    (processar_resultados (fun s => s) "now"
      { baixar_foto_atleta := fun _ => Except.ok (some "f"),
        criar_card_atleta := fun a _ =>
          if a.nome == "B" then Except.error () else Except.ok (some "c"),
        postar_no_x := fun _ _ => Except.ok true }
      (some [{ nome := "A", codigo_atleta := "1", contrato_numero := "10",
               data_publicacao := "d" },
             { nome := "B", codigo_atleta := "2", contrato_numero := "20",
               data_publicacao := "d" },
             { nome := "C", codigo_atleta := "3", contrato_numero := "30",
               data_publicacao := "d" }]) [] none).postados
      = (novosDe (fun s => s) []
          [{ nome := "A", codigo_atleta := "1", contrato_numero := "10",
             data_publicacao := "d" },
           { nome := "B", codigo_atleta := "2", contrato_numero := "20",
             data_publicacao := "d" },
           { nome := "C", codigo_atleta := "3", contrato_numero := "30",
             data_publicacao := "d" }]).countP (publica_com_sucesso
        { baixar_foto_atleta := fun _ => Except.ok (some "f"),
          criar_card_atleta := fun a _ =>
            if a.nome == "B" then Except.error () else Except.ok (some "c"),
          postar_no_x := fun _ _ => Except.ok true }) :=
  isolamento_de_falhas (fun s => s) "now"
    { baixar_foto_atleta := fun _ => Except.ok (some "f"),
      criar_card_atleta := fun a _ =>
        if a.nome == "B" then Except.error () else Except.ok (some "c"),
      postar_no_x := fun _ _ => Except.ok true }
    [] none
    [{ nome := "A", codigo_atleta := "1", contrato_numero := "10",
       data_publicacao := "d" },
     { nome := "B", codigo_atleta := "2", contrato_numero := "20",
       data_publicacao := "d" },
     { nome := "C", codigo_atleta := "3", contrato_numero := "30",
       data_publicacao := "d" }]
    { nome := "C", codigo_atleta := "3", contrato_numero := "30",
      data_publicacao := "d" }
    (by decide) (by decide)

/-- C5: ledger membership invariant — any fingerprint found in the ledger
after a `processar_resultados` call was either already there before the
call or belongs to a record whose publish succeeded during the call. -/
theorem ledger_so_apos_publicacao (md5 : String → String) (now : String)
    (caps : Caps) (resp : Option (List Atleta)) (hist : Historico)
    (store : Store) (h : String)
    (hmem : contem (processar_resultados md5 now caps resp hist store).historico h
      = true) :
    contem hist h = true ∨
      h ∈ (processar_resultados md5 now caps resp hist store).publishSuccesses :=
  processar_contem_inv md5 now caps resp hist store h hmem

/-- C5 witness: after a successful publish into an empty ledger, the new
fingerprint is accounted for by a publish success. -/
theorem ledger_so_apos_publicacao_witness :
    contem ([] : Historico) "1_10_d" = true ∨
      "1_10_d" ∈ (processar_resultados (fun s => s) "now"
        { baixar_foto_atleta := fun _ => Except.ok (some "f"),
          criar_card_atleta := fun _ _ => Except.ok (some "c"),
          postar_no_x := fun _ _ => Except.ok true }
        (some [{ nome := "A", codigo_atleta := "1", contrato_numero := "10",
                 data_publicacao := "d" }]) [] none).publishSuccesses :=
  ledger_so_apos_publicacao (fun s => s) "now"
    { baixar_foto_atleta := fun _ => Except.ok (some "f"),
      criar_card_atleta := fun _ _ => Except.ok (some "c"),
      postar_no_x := fun _ _ => Except.ok true }
    (some [{ nome := "A", codigo_atleta := "1", contrato_numero := "10",
             data_publicacao := "d" }]) [] none "1_10_d" (by decide)

/-- C6: day rollover — the first call only records the baseline and
reports false; a same-date call reports false changing nothing; a
different-date call (remove succeeding) reports true, updates the baseline
and leaves the store absent: (false, false, true). -/
theorem rollover_de_dia (s0 : Store) :
    limpar_historico_se_novo_dia true "2024-01-01" none s0
      = (false, some "2024-01-01", s0) ∧
    limpar_historico_se_novo_dia true "2024-01-01" (some "2024-01-01") s0
      = (false, some "2024-01-01", s0) ∧
    limpar_historico_se_novo_dia true "2024-01-02" (some "2024-01-01") s0
      = (true, some "2024-01-02", none) := by
  refine ⟨rfl, ?_, ?_⟩
  · simp [limpar_historico_se_novo_dia]
  · cases s0 <;> simp [limpar_historico_se_novo_dia]

/-- C7: a batch whose every record is already in the ledger yields count 0,
no publish call, and an untouched ledger and store; running it again still
yields the same untouched state. -/
theorem processamento_idempotente (md5 : String → String) (now : String)
    (caps : Caps) (hist : Historico) (store : Store) (dados : List Atleta)
    (hall : ∀ a ∈ dados, contem hist (gerar_hash_atleta md5 a) = true) :
    processar_resultados md5 now caps (some dados) hist store
      = pinit hist store ∧
    processar_resultados md5 now caps (some dados)
        (processar_resultados md5 now caps (some dados) hist store).historico
        (processar_resultados md5 now caps (some dados) hist store).store
      = pinit hist store := by
  have hnov : novosDe md5 hist dados = [] := by
    rw [novosDe, List.filter_eq_nil_iff]
    intro a ha
    simp [hall a ha]
  have h1 : processar_resultados md5 now caps (some dados) hist store
      = pinit hist store := by
    simp only [processar_resultados, hnov]
    split <;> simp
  exact ⟨h1, by rw [h1]; exact h1⟩

/-- C7 witness: a saturated one-record batch leaves everything unchanged
and returns 0 both times. -/
theorem processamento_idempotente_witness :
    processar_resultados (fun s => s) "now"
      { baixar_foto_atleta := fun _ => Except.ok (some "f"),
        criar_card_atleta := fun _ _ => Except.ok (some "c"),
        postar_no_x := fun _ _ => Except.ok true }
      (some [{ nome := "A", codigo_atleta := "1", contrato_numero := "10",
               data_publicacao := "d" }])
      [("1_10_d", ⟨"A", "1", "10", "d", "now", "1_10_d"⟩)] none
      = pinit [("1_10_d", ⟨"A", "1", "10", "d", "now", "1_10_d"⟩)] none ∧
    processar_resultados (fun s => s) "now"
      { baixar_foto_atleta := fun _ => Except.ok (some "f"),
        criar_card_atleta := fun _ _ => Except.ok (some "c"),
        postar_no_x := fun _ _ => Except.ok true }
      (some [{ nome := "A", codigo_atleta := "1", contrato_numero := "10",
               data_publicacao := "d" }])
      (processar_resultados (fun s => s) "now"
        { baixar_foto_atleta := fun _ => Except.ok (some "f"),
          criar_card_atleta := fun _ _ => Except.ok (some "c"),
          postar_no_x := fun _ _ => Except.ok true }
        (some [{ nome := "A", codigo_atleta := "1", contrato_numero := "10",
                 data_publicacao := "d" }])
        [("1_10_d", ⟨"A", "1", "10", "d", "now", "1_10_d"⟩)] none).historico
      (processar_resultados (fun s => s) "now"
        { baixar_foto_atleta := fun _ => Except.ok (some "f"),
          criar_card_atleta := fun _ _ => Except.ok (some "c"),
          postar_no_x := fun _ _ => Except.ok true }
        (some [{ nome := "A", codigo_atleta := "1", contrato_numero := "10",
                 data_publicacao := "d" }])
        [("1_10_d", ⟨"A", "1", "10", "d", "now", "1_10_d"⟩)] none).store
      = pinit [("1_10_d", ⟨"A", "1", "10", "d", "now", "1_10_d"⟩)] none :=
  processamento_idempotente (fun s => s) "now"
    { baixar_foto_atleta := fun _ => Except.ok (some "f"),
      criar_card_atleta := fun _ _ => Except.ok (some "c"),
      postar_no_x := fun _ _ => Except.ok true }
    [("1_10_d", ⟨"A", "1", "10", "d", "now", "1_10_d"⟩)] none
    [{ nome := "A", codigo_atleta := "1", contrato_numero := "10",
       data_publicacao := "d" }]
    (by decide)

/-- C8 counterexample: a batch whose only record is already in the ledger
returns before the final save (main.py 199): no save call happens and the
absent store is left not reflecting the non-empty in-memory ledger. -/
theorem persistencia_final_contraexemplo :
    (processar_resultados (fun s => s) "now"
      { baixar_foto_atleta := fun _ => Except.ok (some "f"),
        criar_card_atleta := fun _ _ => Except.ok (some "c"),
        postar_no_x := fun _ _ => Except.ok true }
      (some [{ nome := "A", codigo_atleta := "1", contrato_numero := "10",
               data_publicacao := "d" }])
      [("1_10_d", ⟨"A", "1", "10", "d", "now", "1_10_d"⟩)] none).saves = 0 ∧
    (processar_resultados (fun s => s) "now"
      { baixar_foto_atleta := fun _ => Except.ok (some "f"),
        criar_card_atleta := fun _ _ => Except.ok (some "c"),
        postar_no_x := fun _ _ => Except.ok true }
      (some [{ nome := "A", codigo_atleta := "1", contrato_numero := "10",
               data_publicacao := "d" }])
      [("1_10_d", ⟨"A", "1", "10", "d", "now", "1_10_d"⟩)] none).store
      = none := by
  decide

/-- C8 as amended: only when the batch contains at least one new record
does the cycle end with the final save, and then the persisted store does
reflect the final in-memory ledger; empty, malformed and all-seen batches
return without saving. -/
theorem persistencia_final_com_novos (md5 : String → String) (now : String)
    (caps : Caps) (hist : Historico) (store : Store) (dados : List Atleta)
    (hnov : novosDe md5 hist dados ≠ []) :
    (processar_resultados md5 now caps (some dados) hist store).store
      = some (processar_resultados md5 now caps (some dados) hist store).historico ∧
    1 ≤ (processar_resultados md5 now caps (some dados) hist store).saves := by
  have hd : ¬ dados.isEmpty := by
    intro hd
    rw [List.isEmpty_iff] at hd
    subst hd
    exact hnov rfl
  have hn : ¬ (novosDe md5 hist dados).isEmpty := by
    simpa [List.isEmpty_iff] using hnov
  have heq : processar_resultados md5 now caps (some dados) hist store
      = salvar_historico ((novosDe md5 hist dados).foldl
          (processar_um md5 now caps) (pinit hist store)) := by
    simp [processar_resultados, hd, hn]
  rw [heq]
  refine ⟨rfl, ?_⟩
  show 1 ≤ ((novosDe md5 hist dados).foldl
    (processar_um md5 now caps) (pinit hist store)).saves + 1
  omega

/-- C8 amended witness: one new record forces the final save and a store
equal to the final ledger. -/
theorem persistencia_final_com_novos_witness :
    (processar_resultados (fun s => s) "now"
      { baixar_foto_atleta := fun _ => Except.ok (some "f"),
        criar_card_atleta := fun _ _ => Except.ok (some "c"),
        postar_no_x := fun _ _ => Except.ok true }
      (some [{ nome := "A", codigo_atleta := "1", contrato_numero := "10",
               data_publicacao := "d" }]) [] none).store
      = some (processar_resultados (fun s => s) "now"
        { baixar_foto_atleta := fun _ => Except.ok (some "f"),
          criar_card_atleta := fun _ _ => Except.ok (some "c"),
          postar_no_x := fun _ _ => Except.ok true }
        (some [{ nome := "A", codigo_atleta := "1", contrato_numero := "10",
                 data_publicacao := "d" }]) [] none).historico ∧
    1 ≤ (processar_resultados (fun s => s) "now"
      { baixar_foto_atleta := fun _ => Except.ok (some "f"),
        criar_card_atleta := fun _ _ => Except.ok (some "c"),
        postar_no_x := fun _ _ => Except.ok true }
      (some [{ nome := "A", codigo_atleta := "1", contrato_numero := "10",
               data_publicacao := "d" }]) [] none).saves :=
  persistencia_final_com_novos (fun s => s) "now"
    { baixar_foto_atleta := fun _ => Except.ok (some "f"),
      criar_card_atleta := fun _ _ => Except.ok (some "c"),
      postar_no_x := fun _ _ => Except.ok true }
    [] none
    [{ nome := "A", codigo_atleta := "1", contrato_numero := "10",
       data_publicacao := "d" }]
    (by decide)

/-- C9: two distinct records with the same fingerprint, absent from the
ledger, arriving in one batch are both classified new and both get publish
calls in that cycle — deduplication looks only at the snapshot taken
before processing. -/
theorem duplicatas_no_mesmo_lote (md5 : String → String) (now : String)
    (caps : Caps) (hist : Historico) (store : Store) (r1 r2 : Atleta)
    (_hne : r1 ≠ r2)
    (hh : gerar_hash_atleta md5 r1 = gerar_hash_atleta md5 r2)
    (habs : contem hist (gerar_hash_atleta md5 r1) = false)
    (hc1 : tenta_publicar caps r1 = true)
    (hc2 : tenta_publicar caps r2 = true) :
    novosDe md5 hist [r1, r2] = [r1, r2] ∧
    (processar_resultados md5 now caps (some [r1, r2]) hist store).publishCalls
      = [gerar_hash_atleta md5 r1, gerar_hash_atleta md5 r2] := by
  have hnov : novosDe md5 hist [r1, r2] = [r1, r2] := by
    simp [novosDe, List.filter, habs, ← hh]
  refine ⟨hnov, ?_⟩
  have heq : processar_resultados md5 now caps (some [r1, r2]) hist store
      = salvar_historico ([r1, r2].foldl (processar_um md5 now caps)
          (pinit hist store)) := by
    simp [processar_resultados, hnov]
  rw [heq]
  show ([r1, r2].foldl (processar_um md5 now caps)
    (pinit hist store)).publishCalls = _
  rw [List.foldl_cons, List.foldl_cons, List.foldl_nil,
    processar_um_publishCalls, processar_um_publishCalls,
    if_pos hc1, if_pos hc2]
  rfl

/-- C9 witness: two records differing only in name share a fingerprint and
both get publish calls in the same batch. -/
theorem duplicatas_no_mesmo_lote_witness :
    novosDe (fun s => s) []
      [{ nome := "A", codigo_atleta := "1", contrato_numero := "10",
         data_publicacao := "d" },
       { nome := "B", codigo_atleta := "1", contrato_numero := "10",
         data_publicacao := "d" }]
      = [{ nome := "A", codigo_atleta := "1", contrato_numero := "10",
           data_publicacao := "d" },
         { nome := "B", codigo_atleta := "1", contrato_numero := "10",
           data_publicacao := "d" }] ∧
    (processar_resultados (fun s => s) "now"
      { baixar_foto_atleta := fun _ => Except.ok (some "f"),
        criar_card_atleta := fun _ _ => Except.ok (some "c"),
        postar_no_x := fun _ _ => Except.ok true }
      (some [{ nome := "A", codigo_atleta := "1", contrato_numero := "10",
               data_publicacao := "d" },
             { nome := "B", codigo_atleta := "1", contrato_numero := "10",
               data_publicacao := "d" }]) [] none).publishCalls
      = [gerar_hash_atleta (fun s => s)
          { nome := "A", codigo_atleta := "1", contrato_numero := "10",
            data_publicacao := "d" },
         gerar_hash_atleta (fun s => s)
          { nome := "B", codigo_atleta := "1", contrato_numero := "10",
            data_publicacao := "d" }] :=
  duplicatas_no_mesmo_lote (fun s => s) "now"
    { baixar_foto_atleta := fun _ => Except.ok (some "f"),
      criar_card_atleta := fun _ _ => Except.ok (some "c"),
      postar_no_x := fun _ _ => Except.ok true }
    [] none
    { nome := "A", codigo_atleta := "1", contrato_numero := "10",
      data_publicacao := "d" }
    { nome := "B", codigo_atleta := "1", contrato_numero := "10",
      data_publicacao := "d" }
    (by decide) rfl rfl (by decide) (by decide)

/-- C10: if deleting the store raises, the rollover check returns false
and neither the baseline date nor the store changes, so the rollover is
retried on the next call. -/
theorem rollover_atomico_em_falha (d0 d1 : String) (hist : Historico)
    (hne : d1 ≠ d0) :
    limpar_historico_se_novo_dia false d1 (some d0) (some hist)
      = (false, some d0, some hist) := by
  simp [limpar_historico_se_novo_dia, hne]

/-- C10 witness: a failing delete on a real date change leaves baseline
and store untouched. -/
theorem rollover_atomico_em_falha_witness :
    limpar_historico_se_novo_dia false "2024-01-02" (some "2024-01-01")
        (some [("1_10_d", ⟨"A", "1", "10", "d", "now", "1_10_d"⟩)])
      = (false, some "2024-01-01",
          some [("1_10_d", ⟨"A", "1", "10", "d", "now", "1_10_d"⟩)]) :=
  rollover_atomico_em_falha "2024-01-01" "2024-01-02"
    [("1_10_d", ⟨"A", "1", "10", "d", "now", "1_10_d"⟩)] (by decide)

end BIDMonitor
